import Mathlib

/-!
Verification of the HTTP-fetch support utilities of RSS-to-Telegram-Bot
(file src/web/utils.py): the tolerant HTTP date parser
(rfc_2822_8601_to_datetime), the derived-field response view (WebResponse),
the server-side-cache next-check heuristic
(WebFeed.calc_next_check_as_per_server_side_cache) and the proxy bypass
predicate (proxy_filter).

The Python code is shallowly embedded: strings are manipulated as lists of
characters, Python datetime objects become the PyDateTime structure below
(seconds since the Unix epoch in the object's own wall clock, plus an
optional UTC offset; a missing offset models a naive datetime), operations
that can raise in Python return Except values, and parse helpers that are
absorbed with contextlib.suppress return Option values.
-/

/-! ## Python string helpers (on lists of characters) -/

/-- Character-list version of Python str.lower restricted to ASCII
(header values are ASCII in practice). -/
def lcLower (s : List Char) : List Char := s.map Char.toLower

/-- Does the pattern occur anywhere in the list (Python substring test)? -/
def lcContains (p : List Char) : List Char → Bool
  | [] => p.isEmpty
  | c :: t => p.isPrefixOf (c :: t) || lcContains p t

/-- Everything after the first occurrence of the (nonempty) pattern;
empty when the pattern does not occur.  Models Python s.partition(p)[2]. -/
def afterFirst (p : List Char) : List Char → List Char
  | [] => []
  | c :: t => if p.isPrefixOf (c :: t) then (c :: t).drop p.length else afterFirst p t

/-- Everything before the first occurrence of the (nonempty) pattern; the
whole list when the pattern does not occur.  Models Python s.partition(p)[0]. -/
def beforeFirst (p : List Char) : List Char → List Char
  | [] => []
  | c :: t => if p.isPrefixOf (c :: t) then [] else c :: beforeFirst p t

/-- Split on a single character (all occurrences, keeping empty pieces),
like Python str.split(c). -/
def lcSplitChar (c : Char) : List Char → List (List Char)
  | [] => [[]]
  | x :: xs =>
    let r := lcSplitChar c xs
    if x = c then [] :: r
    else
      match r with
      | [] => [[x]]
      | h :: t => (x :: h) :: t

/-- Split on runs of whitespace, dropping empty pieces, like Python
str.split() with no argument. -/
def splitWs : List Char → List Char → List (List Char)
  | [], acc => if acc.isEmpty then [] else [acc.reverse]
  | c :: t, acc =>
    if c.isWhitespace then
      if acc.isEmpty then splitWs t [] else acc.reverse :: splitWs t []
    else splitWs t (c :: acc)

/-- Strip leading and trailing whitespace, like Python str.strip(). -/
def lcStrip (s : List Char) : List Char :=
  ((s.dropWhile Char.isWhitespace).reverse.dropWhile Char.isWhitespace).reverse

/-! ## Python int() and str.isdecimal() models -/

/-- Digit run with single underscores allowed between digits, as accepted by
Python int() after the optional sign; consumes the whole list or fails. -/
def pyDigitsNat : List Char → Option Nat
  | [] => none
  | c :: t =>
    if c.isDigit then pyDigitsNatGo (c.toNat - 48) t else none
where
  pyDigitsNatGo (acc : Nat) : List Char → Option Nat
    | [] => some acc
    | '_' :: c :: t => if c.isDigit then pyDigitsNatGo (acc * 10 + (c.toNat - 48)) t else none
    | c :: t => if c.isDigit then pyDigitsNatGo (acc * 10 + (c.toNat - 48)) t else none

/-- Model of Python int(s) for a base-10 string: surrounding whitespace and
one optional sign are allowed, then digits with single underscores between
digits; any other input raises ValueError, modelled as none. -/
def pyIntChars (s : List Char) : Option Int :=
  match lcStrip s with
  | '+' :: r => (pyDigitsNat r).map Int.ofNat
  | '-' :: r => (pyDigitsNat r).map (fun n => -(n : Int))
  | r => (pyDigitsNat r).map Int.ofNat

/-- Python int() applied to a String. -/
def pyInt (s : String) : Option Int := pyIntChars s.data

/-- Model of Python str.isdecimal() restricted to ASCII: nonempty and all
decimal digits. -/
def pyIsDecimal (s : String) : Bool := !s.data.isEmpty && s.data.all Char.isDigit

/-- Numeric value of an all-digit string (used where isdecimal holds, so
Python int() cannot fail). -/
def pyDecimalNat (s : String) : Nat := s.data.foldl (fun a c => a * 10 + (c.toNat - 48)) 0

/-! ## Python datetime model -/

/-- Model of a Python datetime at second resolution.  seconds counts the
wall-clock reading as seconds since 1970-01-01 00:00:00 in the object's own
clock; tzOffset is the UTC offset in seconds, or none for a naive datetime.
The corresponding UTC instant of an aware value is seconds - offset. -/
structure PyDateTime where
  seconds : Int
  tzOffset : Option Int
deriving DecidableEq, Repr

/-- datetime + timedelta(seconds=n): shifts the clock reading, keeps the
timezone. -/
def PyDateTime.addSeconds (d : PyDateTime) (n : Int) : PyDateTime :=
  ⟨d.seconds + n, d.tzOffset⟩

/-- Model of the Python comparison a < b on datetimes: naive and aware
values cannot be compared (TypeError); aware values compare by UTC instant. -/
def pyDtLt (a b : PyDateTime) : Except String Bool :=
  match a.tzOffset, b.tzOffset with
  | none, none => .ok (a.seconds < b.seconds)
  | some oa, some ob => .ok (a.seconds - oa < b.seconds - ob)
  | _, _ => .error "TypeError: cannot compare naive and aware datetimes"

/-! ## Proleptic Gregorian calendar arithmetic (as in the datetime module) -/

def isLeapYear (y : Nat) : Bool := y % 4 == 0 && (y % 100 != 0 || y % 400 == 0)

def daysInMonth (y m : Nat) : Nat :=
  if m = 2 then (if isLeapYear y then 29 else 28)
  else if m = 4 ∨ m = 6 ∨ m = 9 ∨ m = 11 then 30 else 31

def cumDaysBeforeMonth (y m : Nat) : Nat :=
  [0, 31, 59, 90, 120, 151, 181, 212, 243, 273, 304, 334].getD (m - 1) 0
    + (if 2 < m ∧ isLeapYear y then 1 else 0)

def daysBeforeYear (y : Nat) : Nat :=
  365 * (y - 1) + (y - 1) / 4 - (y - 1) / 100 + (y - 1) / 400

/-- Wall-clock seconds since the epoch for a calendar reading. -/
def naiveEpochSeconds (y mo d h mi s : Nat) : Int :=
  (((daysBeforeYear y + cumDaysBeforeMonth y mo + (d - 1) : Nat) : Int)
      - ((daysBeforeYear 1970 : Nat) : Int)) * 86400
    + ((h * 3600 + mi * 60 + s : Nat) : Int)

/-- Field ranges accepted by the datetime constructor (out-of-range values
raise ValueError). -/
def validDateTime (y mo d h mi s : Nat) : Bool :=
  1 ≤ y && y ≤ 9999 && 1 ≤ mo && mo ≤ 12 && 1 ≤ d && d ≤ daysInMonth y mo
    && h ≤ 23 && mi ≤ 59 && s ≤ 59

/-! ## Model of email.utils.parsedate_to_datetime (RFC 2822 dates) -/

def rfcDaynames : List (List Char) :=
  ["mon".data, "tue".data, "wed".data, "thu".data, "fri".data, "sat".data, "sun".data]

def rfcMonthNum (t : List Char) : Option Nat :=
  if t = "jan".data ∨ t = "january".data then some 1
  else if t = "feb".data ∨ t = "february".data then some 2
  else if t = "mar".data ∨ t = "march".data then some 3
  else if t = "apr".data ∨ t = "april".data then some 4
  else if t = "may".data then some 5
  else if t = "jun".data ∨ t = "june".data then some 6
  else if t = "jul".data ∨ t = "july".data then some 7
  else if t = "aug".data ∨ t = "august".data then some 8
  else if t = "sep".data ∨ t = "september".data then some 9
  else if t = "oct".data ∨ t = "october".data then some 10
  else if t = "nov".data ∨ t = "november".data then some 11
  else if t = "dec".data ∨ t = "december".data then some 12
  else none

/-- The named zones of the email module timezone table, already converted to
seconds (offsets are given there in hour-hundreds form). -/
def rfcNamedZone (t : List Char) : Option Int :=
  if t = "UT".data ∨ t = "GMT".data ∨ t = "UTC".data ∨ t = "Z".data then some 0
  else if t = "AST".data then some (-4 * 3600)
  else if t = "ADT".data then some (-3 * 3600)
  else if t = "EST".data then some (-5 * 3600)
  else if t = "EDT".data then some (-4 * 3600)
  else if t = "CST".data then some (-6 * 3600)
  else if t = "CDT".data then some (-5 * 3600)
  else if t = "MST".data then some (-7 * 3600)
  else if t = "MDT".data then some (-6 * 3600)
  else if t = "PST".data then some (-8 * 3600)
  else if t = "PDT".data then some (-7 * 3600)
  else none

/-- Timezone token of an RFC 2822 date: a named zone, or a signed
four-digit-style number decoded as hours*100+minutes; -0000 and unknown
names mean an unknown zone, hence a naive result. -/
def rfcTzOffset (t : List Char) : Option Int :=
  let u := t.map Char.toUpper
  match rfcNamedZone u with
  | some off => some off
  | none =>
    match pyIntChars t with
    | none => none
    | some v =>
      if v = 0 && (match t with | '-' :: _ => true | _ => false) then none
      else
        let sign : Int := if v < 0 then -1 else 1
        let a := v.natAbs
        some (sign * ((a / 100 : Nat) * 3600 + (a % 100 : Nat) * 60))

/-- All-digit token to number (no sign, as in the day/year fields). -/
def digitsOnlyNat (t : List Char) : Option Nat :=
  if !t.isEmpty && t.all Char.isDigit then
    some (t.foldl (fun a c => a * 10 + (c.toNat - 48)) 0)
  else none

/-- hh:mm or hh:mm:ss token. -/
def rfcTimeOfToken (t : List Char) : Option (Nat × Nat × Nat) :=
  match (lcSplitChar ':' t).map digitsOnlyNat with
  | [some h, some mi] => some (h, mi, 0)
  | [some h, some mi, some s] => some (h, mi, s)
  | _ => none

/-- Two-digit years are widened the way the email module does it. -/
def rfcFixYear (y : Nat) : Nat :=
  if y < 100 then (if y < 69 then y + 2000 else y + 1900) else y

/-- Model of email.utils.parsedate_to_datetime restricted to the common
RFC 2822 shapes: an optional leading day name (any token ending in a comma,
or a bare day name), then day, month name, year, hh:mm[:ss] and an optional
zone token.  Exotic inputs the real parser also accepts (RFC 850 dashed
dates, attached zone suffixes, swapped day/month) are treated as parse
failures here; ValueError raised by the real function is modelled as none. -/
def pyParsedate2822 (s : String) : Option PyDateTime :=
  let tokens := splitWs s.data []
  let tokens :=
    match tokens with
    | t :: rest =>
      if (match t.getLast? with | some ',' => true | _ => false)
          || rfcDaynames.contains (lcLower t) then rest
      else t :: rest
    | [] => []
  let fields :=
    match tokens with
    | [dd, mm, yy, tm] => some (dd, mm, yy, tm, ([] : List Char))
    | [dd, mm, yy, tm, tz] => some (dd, mm, yy, tm, tz)
    | _ => none
  match fields with
  | none => none
  | some (dd, mm, yy, tm, tz) =>
    match digitsOnlyNat dd, rfcMonthNum (lcLower mm), digitsOnlyNat yy, rfcTimeOfToken tm with
    | some d, some mo, some y0, some (h, mi, sec) =>
      let y := rfcFixYear y0
      if validDateTime y mo d h mi sec then
        some ⟨naiveEpochSeconds y mo d h mi sec, rfcTzOffset tz⟩
      else none
    | _, _, _, _ => none

/-! ## Model of datetime.fromisoformat (ISO 8601 dates) -/

/-- UTC offset suffix of an ISO string: Z, +hh:mm, +hhmm or +hh (either
sign).  Returns the offset in seconds. -/
def isoTzOffset : List Char → Option Int
  | ['Z'] => some 0
  | ['z'] => some 0
  | sgn :: rest =>
    if sgn = '+' ∨ sgn = '-' then
      let toOff (h mi : Nat) : Option Int :=
        if h ≤ 23 && mi ≤ 59 then
          some ((if sgn = '-' then (-1 : Int) else 1) * ((h : Int) * 3600 + (mi : Int) * 60))
        else none
      match rest with
      | [h1, h2] =>
        match digitsOnlyNat [h1, h2] with
        | some h => toOff h 0
        | none => none
      | [h1, h2, ':', m1, m2] =>
        match digitsOnlyNat [h1, h2], digitsOnlyNat [m1, m2] with
        | some h, some mi => toOff h mi
        | _, _ => none
      | [h1, h2, m1, m2] =>
        match digitsOnlyNat [h1, h2], digitsOnlyNat [m1, m2] with
        | some h, some mi => toOff h mi
        | _, _ => none
      | _ => none
    else none
  | _ => none

/-- Time-and-offset part of an ISO string: hh:mm or hh:mm:ss followed by an
optional offset suffix.  some (h, mi, s, off) on success. -/
def isoTimePart : List Char → Option (Nat × Nat × Nat × Option Int)
  | h1 :: h2 :: ':' :: m1 :: m2 :: rest =>
    match digitsOnlyNat [h1, h2], digitsOnlyNat [m1, m2] with
    | some h, some mi =>
      match rest with
      | [] => some (h, mi, 0, none)
      | ':' :: s1 :: s2 :: rest2 =>
        match digitsOnlyNat [s1, s2] with
        | some s =>
          match rest2 with
          | [] => some (h, mi, s, none)
          | _ => (isoTzOffset rest2).map (fun o => (h, mi, s, some o))
        | none => none
      | _ => (isoTzOffset rest).map (fun o => (h, mi, 0, some o))
    | _, _ => none
  | _ => none

/-- Model of datetime.fromisoformat restricted to the common extended
format: YYYY-MM-DD, optionally followed by a single separator character and
hh:mm[:ss] with an optional Z / signed offset suffix.  Naive when no offset
is present.  Basic-format dates, fractional seconds and other rarer shapes
the Python 3.11 parser accepts are treated as parse failures here;
ValueError is modelled as none. -/
def pyFromIso (s : String) : Option PyDateTime :=
  match s.data with
  | y1 :: y2 :: y3 :: y4 :: '-' :: m1 :: m2 :: '-' :: d1 :: d2 :: rest =>
    match digitsOnlyNat [y1, y2, y3, y4], digitsOnlyNat [m1, m2], digitsOnlyNat [d1, d2] with
    | some y, some mo, some d =>
      match rest with
      | [] =>
        if validDateTime y mo d 0 0 0 then some ⟨naiveEpochSeconds y mo d 0 0 0, none⟩ else none
      | _ :: timePart =>
        match isoTimePart timePart with
        | some (h, mi, sec, off) =>
          if validDateTime y mo d h mi sec then
            some ⟨naiveEpochSeconds y mo d h mi sec, off⟩
          else none
        | none => none
    | _, _, _ => none
  | _ => none

/-! ## The repository's date parser (src/web/utils.py, rfc_2822_8601_to_datetime) -/

/-- Embedding of rfc_2822_8601_to_datetime: empty or missing input gives
none; otherwise try the RFC 2822 parse, then the ISO 8601 parse, each with
ValueError suppressed; none when both fail. -/
def rfc_2822_8601_to_datetime (time_str : Option String) : Option PyDateTime :=
  match time_str with
  | none => none
  | some s =>
    if s = "" then none
    else
      match pyParsedate2822 s with
      | some d => some d
      | none => pyFromIso s

/-! ## Case-insensitive header map (CIMultiDictProxy) -/

/-- Response headers: an ordered list of key/value pairs looked up
case-insensitively, first match wins, as in the CIMultiDictProxy the code
receives from aiohttp. -/
abbrev Headers := List (String × String)

/-- headers.get(key): first value whose key matches case-insensitively. -/
def Headers.get (h : Headers) (k : String) : Option String :=
  (h.find? (fun p => lcLower p.1.data = lcLower k.data)).map (fun p => p.2)

/-- headers.get(key, default). -/
def Headers.getD (h : Headers) (k d : String) : String := (h.get k).getD d

/-! ## WebResponse (src/web/utils.py) and its derived fields

The cached_property accessors are pure functions of the frozen dataclass
fields, so they are embedded as plain functions.  The observation instant
self.now is datetime.now(timezone.utc), captured once per view and memoized;
it is modelled by the nowSeconds field, and is always aware UTC. -/

structure WebResponse where
  url : String
  ori_url : String
  content : Option String
  headers : Headers
  status : Int
  reason : Option String
  nowSeconds : Int
deriving DecidableEq, Repr

def WebResponse.AGE_REMAINING_CLAMP_MIN : Int := 0
def WebResponse.AGE_REMAINING_CLAMP_MAX : Int := 21600

/-- self.now: the memoized datetime.now(timezone.utc), an aware UTC value. -/
def WebResponse.now (wr : WebResponse) : PyDateTime := ⟨wr.nowSeconds, some 0⟩

/-- ETag header, with the empty string prohibited (treated as absent). -/
def WebResponse.etag (wr : WebResponse) : Option String :=
  match wr.headers.get "ETag" with
  | none => none
  | some e => if e = "" then none else some e

/-- Parsed Date header, falling back to now. -/
def WebResponse.date (wr : WebResponse) : PyDateTime :=
  (rfc_2822_8601_to_datetime (wr.headers.get "Date")).getD wr.now

/-- Parsed Last-Modified header, falling back to date. -/
def WebResponse.last_modified (wr : WebResponse) : PyDateTime :=
  (rfc_2822_8601_to_datetime (wr.headers.get "Last-Modified")).getD wr.date

/-- max_age: parse the lowercased Cache-Control header; empty/absent gives
none, a no-cache/no-store substring gives 0, otherwise the text between the
first max-age= and the next comma is fed to int() (ValueError gives none). -/
def WebResponse.max_age (wr : WebResponse) : Option Int :=
  let cache_control := lcLower (wr.headers.getD "Cache-Control" "").data
  if cache_control.isEmpty then none
  else if lcContains "no-cache".data cache_control
      || lcContains "no-store".data cache_control then some 0
  else
    let ma := beforeFirst ",".data (afterFirst "max-age=".data cache_control)
    if !ma.isEmpty then pyIntChars ma else none

/-- Age header through int(), with falsy (missing or empty) input and
ValueError both giving none. -/
def WebResponse.age (wr : WebResponse) : Option Int :=
  match wr.headers.get "Age" with
  | none => none
  | some a => if a = "" then none else pyIntChars a.data

/-- age_remaining: none when max_age is none, otherwise
max_age - (age or 0) clamped into [0, 21600]. -/
def WebResponse.age_remaining (wr : WebResponse) : Option Int :=
  match wr.max_age with
  | none => none
  | some m =>
    let ar := m - ((wr.age).getD 0)
    if ar < WebResponse.AGE_REMAINING_CLAMP_MIN then some WebResponse.AGE_REMAINING_CLAMP_MIN
    else if ar > WebResponse.AGE_REMAINING_CLAMP_MAX then some WebResponse.AGE_REMAINING_CLAMP_MAX
    else some ar

/-- expires: the Expires header parse when age_remaining is none, none when
age_remaining is nonpositive, date + age_remaining seconds otherwise. -/
def WebResponse.expires (wr : WebResponse) : Option PyDateTime :=
  match wr.age_remaining with
  | none => rfc_2822_8601_to_datetime (wr.headers.get "Expires")
  | some ar =>
    if ar ≤ 0 then none
    else some (wr.date.addSeconds ar)

/-! ## WebFeed and the next-check heuristic -/

/-- The feed fields the heuristic reads from rss_d.feed (a feedparser
dictionary; absent keys give None / the supplied default). -/
structure FeedInfo where
  generator : Option String
  updated : Option String
  ttl : Option String
deriving DecidableEq, Repr

/-- The WebFeed dataclass fields used by the heuristic.  headers and rss_d
default to None in the source, so they stay optional here; accessing an
attribute on a missing one raises AttributeError. -/
structure WebFeed where
  url : String
  ori_url : String
  content : Option String
  headers : Option Headers
  status : Int
  reason : Option String
  rss_d : Option FeedInfo
  web_response : Option WebResponse
deriving DecidableEq, Repr

/-- The Cloudflare edge-cache rule of
calc_next_check_as_per_server_side_cache: when the cf-cache-status header is
one of HIT/MISS/EXPIRED/REVALIDATED (exact, case-sensitive string match on
the value; the header key lookup is case-insensitive like every CIMultiDict
access) and expires is defined and strictly later than now, return expires;
otherwise fall through (ok none).  Comparing a naive expires with the aware
now raises TypeError. -/
def cfRule (hs : Headers) (wr : WebResponse) : Except String (Option PyDateTime) :=
  if (match hs.get "cf-cache-status" with
      | some v => ["HIT", "MISS", "EXPIRED", "REVALIDATED"].contains v
      | none => false) then
    match wr.expires with
    | some e =>
      match pyDtLt wr.now e with
      | .error m => .error m
      | .ok true => .ok (some e)
      | .ok false => .ok none
    | none => .ok none
  else .ok none

/-- The effective TTL in seconds computed by the RSSHub rule, including the
Python `or -1` which also turns a falsy 0 into -1:
(int(ttl)*60 if ttl.isdecimal() else wr.max_age) or -1. -/
def rsshubTTL (fd : FeedInfo) (wr : WebResponse) : Int :=
  let t := (fd.ttl).getD ""
  let pre : Option Int :=
    if pyIsDecimal t then some ((pyDecimalNat t : Int) * 60) else wr.max_age
  match pre with
  | some n => if n = 0 then -1 else n
  | none => -1

/-- The RSSHub feed-TTL rule of calc_next_check_as_per_server_side_cache:
requires generator exactly RSSHub and a truthy updated string; then, when
the effective TTL exceeds 300 seconds and updated parses to an instant with
updated + TTL strictly later than now, returns that instant; otherwise ok
none.  rss_d is None raises AttributeError; comparing a naive parsed
updated with the aware now raises TypeError. -/
def rsshubRule (rss_d : Option FeedInfo) (wr : WebResponse) : Except String (Option PyDateTime) :=
  match rss_d with
  | none => .error "AttributeError: NoneType object has no attribute feed"
  | some fd =>
    if fd.generator = some "RSSHub" then
      match fd.updated with
      | none => .ok none
      | some u =>
        if u = "" then .ok none
        else
          let ttl := rsshubTTL fd wr
          if ttl > 300 then
            match rfc_2822_8601_to_datetime (some u) with
            | none => .ok none
            | some upd =>
              match pyDtLt wr.now (upd.addSeconds ttl) with
              | .error m => .error m
              | .ok true => .ok (some (upd.addSeconds ttl))
              | .ok false => .ok none
          else .ok none
    else .ok none

/-- Embedding of WebFeed.calc_next_check_as_per_server_side_cache: None when
there is no response view; otherwise the edge-cache rule on the feed's
headers (AttributeError when headers is None), then the RSSHub rule. -/
def WebFeed.calc_next_check_as_per_server_side_cache
    (f : WebFeed) : Except String (Option PyDateTime) :=
  match f.web_response with
  | none => .ok none
  | some wr =>
    match f.headers with
    | none => .error "AttributeError: NoneType object has no attribute get"
    | some hs =>
      match cfRule hs wr with
      | .error m => .error m
      | .ok (some t) => .ok (some t)
      | .ok none => rsshubRule f.rss_d wr

/-! ## ipaddress and proxy_filter -/

/-- An IP address value as produced by ipaddress.ip_address. -/
inductive PyIpAddr where
  | v4 (n : Nat)
  | v6 (n : Nat)
deriving DecidableEq, Repr

/-- Strict dotted-quad IPv4 literal: exactly four decimal parts in 0..255,
digits only, no leading zeros (as the ipaddress module enforces). -/
def ipv4OfChars (s : List Char) : Option Nat :=
  let partVal (p : List Char) : Option Nat :=
    match digitsOnlyNat p with
    | some v =>
      if v ≤ 255 && (p.length = 1 || (match p with | '0' :: _ => false | _ => true)) then some v
      else none
    | none => none
  match (lcSplitChar '.' s).map partVal with
  | [some a, some b, some c, some d] => some (((a * 256 + b) * 256 + c) * 256 + d)
  | _ => none

/-- One IPv6 group: one to four hex digits. -/
def hextetVal (p : List Char) : Option Nat :=
  if 1 ≤ p.length && p.length ≤ 4 && p.all (fun c => c.isDigit || ('a' ≤ c && c ≤ 'f') || ('A' ≤ c && c ≤ 'F')) then
    some (p.foldl (fun a c =>
      a * 16 + (if c.isDigit then c.toNat - 48
                else if 'a' ≤ c && c ≤ 'f' then c.toNat - 87 else c.toNat - 55)) 0)
  else none

/-- Split at the first "::", if any. -/
def findDoubleColon : List Char → Option (List Char × List Char)
  | ':' :: ':' :: t => some ([], t)
  | c :: t => (findDoubleColonFrom c t)
  | [] => none
where
  findDoubleColonFrom (c : Char) (t : List Char) : Option (List Char × List Char) :=
    match t with
    | ':' :: ':' :: r => some ([c], r)
    | x :: r => (findDoubleColonFrom x r).map (fun p => (c :: p.1, p.2))
    | [] => none

/-- IPv6 literal restricted to plain colon-separated groups with at most one
"::" compression (no embedded IPv4, no zone suffix, which the real module
also accepts). -/
def ipv6OfChars (s : List Char) : Option Nat :=
  let groups (t : List Char) : Option (List Nat) :=
    if t.isEmpty then some []
    else (lcSplitChar ':' t).mapM hextetVal
  match findDoubleColon s with
  | none =>
    match (lcSplitChar ':' s).mapM hextetVal with
    | some gs => if gs.length = 8 then some (gs.foldl (fun a g => a * 65536 + g) 0) else none
    | none => none
  | some (l, r) =>
    match groups l, groups r with
    | some gl, some gr =>
      if gl.length + gr.length ≤ 7 then
        some ((gl ++ List.replicate (8 - gl.length - gr.length) 0 ++ gr).foldl
          (fun a g => a * 65536 + g) 0)
      else none
    | _, _ => none

/-- Model of ipaddress.ip_address on a hostname string: an IPv4 literal,
else an IPv6 literal, else ValueError (none). -/
def ip_address (s : String) : Option PyIpAddr :=
  match ipv4OfChars s.data with
  | some n => some (.v4 n)
  | none => (ipv6OfChars s.data).map .v6

/-- Membership of an address in the fixed PRIVATE_NETWORKS tuple
(127.0.0.0/8, ::1/128, 169.254.0.0/16, fe80::/10, 10.0.0.0/8, 172.16.0.0/12,
192.168.0.0/16, fc00::/7); mixed-version membership tests are false. -/
def inPrivateNetworks : PyIpAddr → Bool
  | .v4 n =>
    n / 2 ^ 24 = 127 || n / 2 ^ 16 = 169 * 256 + 254 || n / 2 ^ 24 = 10
      || n / 2 ^ 20 = 2753 || n / 2 ^ 16 = 192 * 256 + 168
  | .v6 n =>
    n = 1 || n / 2 ^ 118 = 1018 || n / 2 ^ 121 = 126

/-- The process-wide bypass configuration the source reads from env. -/
structure ProxyEnvCfg where
  PROXY_BYPASS_PRIVATE : Bool
  PROXY_BYPASS_DOMAINS : List String
deriving DecidableEq, Repr

/-- The per-domain test inside proxy_filter:
hostname.endswith(domain) and (hostname == domain or hostname[-len(domain)-1] == '.'). -/
def domainMatch (h d : List Char) : Bool :=
  d.isSuffixOf h && (h == d || (h.take (h.length - d.length)).getLast? == some '.')

/-- Embedding of proxy_filter.  The hostname argument carries
urlparse(url).hostname (which can be None) when parse is true, or the raw
url string otherwise; the env globals become an explicit configuration.
True means use the proxy, False means bypass it.  A None hostname makes
ip_address raise ValueError, which is suppressed, but hostname.endswith in
the domain rule raises AttributeError. -/
def proxy_filter (cfg : ProxyEnvCfg) (hostname : Option String) : Except String Bool :=
  if !(cfg.PROXY_BYPASS_PRIVATE || !cfg.PROXY_BYPASS_DOMAINS.isEmpty) then .ok true
  else
    let privHit : Bool :=
      cfg.PROXY_BYPASS_PRIVATE &&
        (match hostname with
         | some h =>
           match ip_address h with
           | some a => inPrivateNetworks a
           | none => false
         | none => false)
    if privHit then .ok false
    else if !cfg.PROXY_BYPASS_DOMAINS.isEmpty then
      match hostname with
      | none => .error "AttributeError: NoneType object has no attribute endswith"
      | some h =>
        if cfg.PROXY_BYPASS_DOMAINS.any (fun d => domainMatch h.data d.data) then .ok false
        else .ok true
    else .ok true

/-! ## Shared test fixtures -/

/-- A response view with the given headers and observation instant; the
transport fields are irrelevant to every derived field. -/
def mkTestResponse (hs : Headers) (t : Int) : WebResponse :=
  ⟨"", "", none, hs, 200, none, t⟩

/-! ## C3: Cache-Control / max_age parsing -/

/-- C3: max_age is absent when the Cache-Control header is absent or empty;
0 when the header contains no-cache or no-store as a case-insensitive
substring; otherwise it is the integer between the first occurrence of
max-age= and the next comma when that text parses as an integer, and absent
when that text is empty or does not parse. -/
theorem C3_max_age_parsing (wr : WebResponse) :
    (wr.headers.getD "Cache-Control" "" = "" → wr.max_age = none)
    ∧ (∀ cc, cc = lcLower (wr.headers.getD "Cache-Control" "").data → cc ≠ [] →
        ((lcContains "no-cache".data cc || lcContains "no-store".data cc) = true →
          wr.max_age = some 0)
        ∧ ((lcContains "no-cache".data cc || lcContains "no-store".data cc) = false →
          (∀ n, beforeFirst ",".data (afterFirst "max-age=".data cc) ≠ [] →
            pyIntChars (beforeFirst ",".data (afterFirst "max-age=".data cc)) = some n →
            wr.max_age = some n)
          ∧ ((beforeFirst ",".data (afterFirst "max-age=".data cc) = []
               ∨ pyIntChars (beforeFirst ",".data (afterFirst "max-age=".data cc)) = none) →
            wr.max_age = none))) := by
  refine ⟨?_, ?_⟩
  · intro h
    simp [WebResponse.max_age, h, lcLower]
  · rintro cc rfl hne
    have hccE : (lcLower (wr.headers.getD "Cache-Control" "").data).isEmpty = false := by
      cases h : lcLower (wr.headers.getD "Cache-Control" "").data with
      | nil => exact absurd h hne
      | cons a t => simp [h]
    constructor
    · intro hsub
      simp [WebResponse.max_age, hccE, hsub]
    · intro hsub
      constructor
      · intro n hne2 hparse
        have : (beforeFirst ",".data (afterFirst "max-age=".data
            (lcLower (wr.headers.getD "Cache-Control" "").data))).isEmpty = false := by
          cases h : beforeFirst ",".data (afterFirst "max-age=".data
              (lcLower (wr.headers.getD "Cache-Control" "").data)) with
          | nil => exact absurd h hne2
          | cons a t => simp [h]
        simp [WebResponse.max_age, hccE, hsub, this, hparse]
      · rintro (hemp | hparse)
        · simp [WebResponse.max_age, hccE, hsub, hemp]
        · by_cases hemp : beforeFirst ",".data (afterFirst "max-age=".data
              (lcLower (wr.headers.getD "Cache-Control" "").data)) = []
          · simp [WebResponse.max_age, hccE, hsub, hemp]
          · have : (beforeFirst ",".data (afterFirst "max-age=".data
                (lcLower (wr.headers.getD "Cache-Control" "").data))).isEmpty = false := by
              cases h : beforeFirst ",".data (afterFirst "max-age=".data
                  (lcLower (wr.headers.getD "Cache-Control" "").data)) with
              | nil => exact absurd h hemp
              | cons a t => simp [h]
            simp [WebResponse.max_age, hccE, hsub, this, hparse]

/-- C3 witness: the two concrete examples of the claim. -/
theorem C3_max_age_parsing_witness :
    (mkTestResponse [("Cache-Control", "max-age=120")] 0).max_age = some 120
    ∧ (mkTestResponse [("Cache-Control", "max-age=abc")] 0).max_age = none := by
  constructor
  · exact (((C3_max_age_parsing (mkTestResponse [("Cache-Control", "max-age=120")] 0)).2
      _ rfl (by decide)).2 (by decide)).1 120 (by decide) (by decide)
  · exact (((C3_max_age_parsing (mkTestResponse [("Cache-Control", "max-age=abc")] 0)).2
      _ rfl (by decide)).2 (by decide)).2 (Or.inr (by decide))

/-! ## C4: age_remaining clamping invariant -/

/-- C4: age_remaining is absent exactly when max_age is absent; when max_age
is defined it equals max_age minus (age, or 0 when absent) clamped into
[0, 21600]; hence every defined age_remaining lies in [0, 21600]. -/
theorem C4_age_remaining_clamped (wr : WebResponse) :
    (wr.age_remaining = none ↔ wr.max_age = none)
    ∧ (∀ m, wr.max_age = some m →
        wr.age_remaining = some (min (max (m - (wr.age).getD 0) 0) 21600))
    ∧ (∀ v, wr.age_remaining = some v → 0 ≤ v ∧ v ≤ 21600) := by
  have hrep : ∀ m, wr.max_age = some m →
      wr.age_remaining = some (min (max (m - (wr.age).getD 0) 0) 21600) := by
    intro m hm
    simp only [WebResponse.age_remaining, hm, WebResponse.AGE_REMAINING_CLAMP_MIN,
      WebResponse.AGE_REMAINING_CLAMP_MAX]
    split
    · next h => congr 1; omega
    · split
      · next h h2 => congr 1; omega
      · next h h2 => congr 1; omega
  refine ⟨?_, hrep, ?_⟩
  · constructor
    · intro h
      cases hm : wr.max_age with
      | none => rfl
      | some m => rw [hrep m hm] at h; exact absurd h (by simp)
    · intro h
      simp [WebResponse.age_remaining, h]
  · intro v hv
    cases hm : wr.max_age with
    | none => simp [WebResponse.age_remaining, hm] at hv
    | some m =>
      rw [hrep m hm] at hv
      have := Option.some.inj hv
      omega

/-- C4 witness: a view with max-age 100 and Age 300 clamps to 0; one with
max-age 100000 clamps to 21600. -/
theorem C4_age_remaining_clamped_witness :
    (mkTestResponse [("Cache-Control", "max-age=100"), ("Age", "300")] 0).age_remaining = some 0
    ∧ (mkTestResponse [("Cache-Control", "max-age=100000")] 0).age_remaining = some 21600 := by
  constructor
  · exact ((C4_age_remaining_clamped _).2.1 100 (by decide)).trans (by decide)
  · exact ((C4_age_remaining_clamped _).2.1 100000 (by decide)).trans (by decide)

/-! ## C5: expires derivation -/

/-- C5: expires is the direct parse of the Expires header when age_remaining
is absent, absent when age_remaining is defined and nonpositive, and
date + age_remaining seconds otherwise. -/
theorem C5_expires_derivation (wr : WebResponse) :
    (wr.age_remaining = none →
      wr.expires = rfc_2822_8601_to_datetime (wr.headers.get "Expires"))
    ∧ (∀ ar, wr.age_remaining = some ar → ar ≤ 0 → wr.expires = none)
    ∧ (∀ ar, wr.age_remaining = some ar → 0 < ar →
        wr.expires = some (wr.date.addSeconds ar)) := by
  refine ⟨?_, ?_, ?_⟩
  · intro h
    simp [WebResponse.expires, h]
  · intro ar har hle
    simp [WebResponse.expires, har, hle]
  · intro ar har hpos
    have : ¬ ar ≤ 0 := by omega
    simp [WebResponse.expires, har, this]

/-- C5 witness: an already-expired view (max-age 0) has absent expires; a
fresh one gets date + age_remaining. -/
theorem C5_expires_derivation_witness :
    (mkTestResponse [("Cache-Control", "max-age=0")] 0).expires = none
    ∧ (mkTestResponse
        [("Date", "Wed, 21 Oct 2015 07:28:00 GMT"), ("Cache-Control", "max-age=600")]
        0).expires = some ⟨1445413080, some 0⟩ := by
  constructor
  · exact (C5_expires_derivation _).2.1 0 (by decide) (by decide)
  · exact ((C5_expires_derivation _).2.2 600 (by decide) (by decide)).trans (by decide)

/-! ## C10: substring search for max-age= -/

/-- C10 counterexample: the claim's example Cache-Control: s-maxage=600 does
not yield max_age = 600; it yields absent, because s-maxage does not contain
the hyphenated substring max-age=. -/
theorem C10_counterexample :
    (mkTestResponse [("Cache-Control", "s-maxage=600")] 0).max_age = none
    ∧ (mkTestResponse [("Cache-Control", "s-maxage=600")] 0).max_age ≠ some 600 := by
  constructor
  · decide
  · decide

/-- C10 amended: header values without a standalone max-age directive can
still produce a defined max_age because the directive is located by
substring search — x-max-age=600 yields 600 — but s-maxage=600 yields
absent, since the substring max-age= does not occur in it. -/
theorem C10_substring_max_age :
    (mkTestResponse [("Cache-Control", "x-max-age=600")] 0).max_age = some 600
    ∧ (mkTestResponse [("Cache-Control", "s-maxage=600")] 0).max_age = none := by
  constructor
  · decide
  · decide

/-! ## C9: purity of the derived fields -/

/-- C9 counterexample: two views built from identical headers but at
different instants disagree on date and expires when no Date header is
present, because date falls back to the observation instant now. -/
theorem C9_counterexample :
    (mkTestResponse [("Cache-Control", "max-age=100")] 0).headers
        = (mkTestResponse [("Cache-Control", "max-age=100")] 10).headers
    ∧ (mkTestResponse [("Cache-Control", "max-age=100")] 0).date
        ≠ (mkTestResponse [("Cache-Control", "max-age=100")] 10).date
    ∧ (mkTestResponse [("Cache-Control", "max-age=100")] 0).expires
        ≠ (mkTestResponse [("Cache-Control", "max-age=100")] 10).expires := by
  refine ⟨rfl, ?_, ?_⟩
  · decide
  · decide

/-- C9 amended: every derived field is a pure function of the headers and
the observation instant; etag, max_age, age and age_remaining depend on the
headers alone, and so do date, last_modified and expires whenever the Date
header is present and parses — only when it is absent or unparseable do the
date-valued fields inherit the view's own now. -/
theorem C9_pure_derived_fields (v1 v2 : WebResponse) (hh : v1.headers = v2.headers) :
    (v1.etag = v2.etag ∧ v1.max_age = v2.max_age ∧ v1.age = v2.age
      ∧ v1.age_remaining = v2.age_remaining)
    ∧ (v1.nowSeconds = v2.nowSeconds →
        v1.date = v2.date ∧ v1.last_modified = v2.last_modified ∧ v1.expires = v2.expires)
    ∧ ((rfc_2822_8601_to_datetime (v1.headers.get "Date")).isSome = true →
        v1.date = v2.date ∧ v1.last_modified = v2.last_modified ∧ v1.expires = v2.expires) := by
  have hmax : v1.max_age = v2.max_age := by
    simp only [WebResponse.max_age, Headers.getD, hh]
  have hage : v1.age = v2.age := by
    simp only [WebResponse.age, hh]
  have har : v1.age_remaining = v2.age_remaining := by
    simp only [WebResponse.age_remaining, hmax, hage]
  have hdatelm : v1.date = v2.date →
      v1.last_modified = v2.last_modified ∧ v1.expires = v2.expires := by
    intro hdate
    constructor
    · simp only [WebResponse.last_modified, hh, hdate]
    · simp only [WebResponse.expires, har, hh, hdate]
  refine ⟨⟨by simp only [WebResponse.etag, hh], hmax, hage, har⟩, ?_, ?_⟩
  · intro hnow
    have hdate : v1.date = v2.date := by
      simp only [WebResponse.date, hh, WebResponse.now, hnow]
    exact ⟨hdate, hdatelm hdate⟩
  · intro hsome
    obtain ⟨d, hd⟩ := Option.isSome_iff_exists.mp hsome
    have hdate : v1.date = v2.date := by
      simp only [WebResponse.date, hh] at hd ⊢
      rw [hd]
      rfl
    exact ⟨hdate, hdatelm hdate⟩

/-- C9 witness: with a parseable Date header, two views at different
instants share every derived value. -/
theorem C9_pure_derived_fields_witness :
    (mkTestResponse [("Date", "Wed, 21 Oct 2015 07:28:00 GMT"), ("Cache-Control", "max-age=600")] 0).expires
      = (mkTestResponse [("Date", "Wed, 21 Oct 2015 07:28:00 GMT"), ("Cache-Control", "max-age=600")] 999).expires
    ∧ (mkTestResponse [("Date", "Wed, 21 Oct 2015 07:28:00 GMT"), ("Cache-Control", "max-age=600")] 0).max_age
      = (mkTestResponse [("Date", "Wed, 21 Oct 2015 07:28:00 GMT"), ("Cache-Control", "max-age=600")] 999).max_age := by
  have h := C9_pure_derived_fields
    (mkTestResponse [("Date", "Wed, 21 Oct 2015 07:28:00 GMT"), ("Cache-Control", "max-age=600")] 0)
    (mkTestResponse [("Date", "Wed, 21 Oct 2015 07:28:00 GMT"), ("Cache-Control", "max-age=600")] 999)
    rfl
  exact ⟨(h.2.2 (by decide)).2.2, h.1.2.1⟩

/-! ## C6: the tolerant date parser -/

/-- C6 counterexample: an ISO input without zone information yields a
defined result whose timezone is missing (a naive datetime), so a defined
result is not always a UTC-aware timestamp. -/
theorem C6_counterexample :
    (rfc_2822_8601_to_datetime (some "2015-10-21T07:28:00")).map PyDateTime.tzOffset
      = some none := by
  decide

/-- C6 amended: empty or absent input parses to no value; otherwise the
RFC 2822 parse is attempted first and the ISO 8601 parse only on its
failure; no value when both fail; a defined result carries the input's own
timezone when one is present (aware) but is naive when the input has no
zone information. -/
theorem C6_date_parse (s : String) :
    (rfc_2822_8601_to_datetime none = none ∧ rfc_2822_8601_to_datetime (some "") = none)
    ∧ (∀ d, pyParsedate2822 s = some d → rfc_2822_8601_to_datetime (some s) = some d)
    ∧ (pyParsedate2822 s = none → s ≠ "" →
        rfc_2822_8601_to_datetime (some s) = pyFromIso s)
    ∧ (pyParsedate2822 s = none → pyFromIso s = none →
        rfc_2822_8601_to_datetime (some s) = none)
    ∧ rfc_2822_8601_to_datetime (some "Wed, 21 Oct 2015 07:28:00 GMT")
        = some ⟨1445412480, some 0⟩
    ∧ rfc_2822_8601_to_datetime (some "2015-10-21T07:28:00")
        = some ⟨1445412480, none⟩ := by
  refine ⟨⟨rfl, by decide⟩, ?_, ?_, ?_, by decide, by decide⟩
  · intro d h
    by_cases hs : s = ""
    · subst hs
      have : pyParsedate2822 "" = none := by decide
      rw [this] at h
      exact absurd h (by simp)
    · simp [rfc_2822_8601_to_datetime, hs, h]
  · intro h hne
    simp [rfc_2822_8601_to_datetime, hne, h]
  · intro h1 h2
    by_cases hs : s = ""
    · simp [rfc_2822_8601_to_datetime, hs]
    · simp [rfc_2822_8601_to_datetime, hs, h1, h2]

/-- C6 witness: the parser applied through the theorem at a concrete
RFC 2822 failure that the ISO branch then handles. -/
theorem C6_date_parse_witness :
    rfc_2822_8601_to_datetime (some "2015-10-21 07:28:00+08:00")
      = pyFromIso "2015-10-21 07:28:00+08:00"
    ∧ rfc_2822_8601_to_datetime (some "not a date") = none := by
  constructor
  · exact (C6_date_parse "2015-10-21 07:28:00+08:00").2.2.1 (by decide) (by decide)
  · exact (C6_date_parse "not a date").2.2.2.1 (by decide) (by decide)

/-! ## C1: the Cloudflare edge-cache rule -/

/-- Membership in a string list decides contains. -/
theorem contains_eq_true_of_mem {l : List String} {v : String} (h : v ∈ l) :
    l.contains v = true := by
  induction l with
  | nil => cases h
  | cons a t ih =>
    rcases List.mem_cons.mp h with rfl | h2
    · simp [List.contains_cons]
    · simp only [List.contains_cons, ih h2, Bool.or_true]

/-- Non-membership in a string list decides contains. -/
theorem contains_eq_false_of_not_mem {l : List String} {v : String} (h : v ∉ l) :
    l.contains v = false := by
  induction l with
  | nil => rfl
  | cons a t ih =>
    have h1 : (v == a) = false :=
      beq_eq_false_iff_ne.mpr (fun he => h (he ▸ List.mem_cons_self a t))
    have h2 := ih (fun he => h (List.mem_cons_of_mem a he))
    simp only [List.contains_cons, h1, h2, Bool.or_false]

/-- C1: with a response view and feed headers present, when the
cf-cache-status value is one of HIT/MISS/EXPIRED/REVALIDATED and expires is
defined and strictly after now, calc_next_check returns exactly expires;
when the value is any other string, or the header is absent, or expires is
absent or not strictly after now, the rule does not fire and evaluation
falls through to the RSSHub feed-TTL rule. -/
theorem C1_edge_cache_rule (f : WebFeed) (wr : WebResponse) (hs : Headers)
    (hwr : f.web_response = some wr) (hhs : f.headers = some hs) :
    (∀ v e, hs.get "cf-cache-status" = some v →
      v ∈ (["HIT", "MISS", "EXPIRED", "REVALIDATED"] : List String) →
      wr.expires = some e → pyDtLt wr.now e = .ok true →
      f.calc_next_check_as_per_server_side_cache = .ok (some e))
    ∧ (∀ v, hs.get "cf-cache-status" = some v →
        v ∉ (["HIT", "MISS", "EXPIRED", "REVALIDATED"] : List String) →
        f.calc_next_check_as_per_server_side_cache = rsshubRule f.rss_d wr)
    ∧ (hs.get "cf-cache-status" = none →
        f.calc_next_check_as_per_server_side_cache = rsshubRule f.rss_d wr)
    ∧ (∀ v, hs.get "cf-cache-status" = some v →
        v ∈ (["HIT", "MISS", "EXPIRED", "REVALIDATED"] : List String) →
        wr.expires = none →
        f.calc_next_check_as_per_server_side_cache = rsshubRule f.rss_d wr)
    ∧ (∀ v e, hs.get "cf-cache-status" = some v →
        v ∈ (["HIT", "MISS", "EXPIRED", "REVALIDATED"] : List String) →
        wr.expires = some e → pyDtLt wr.now e = .ok false →
        f.calc_next_check_as_per_server_side_cache = rsshubRule f.rss_d wr) := by
  refine ⟨?_, ?_, ?_, ?_, ?_⟩
  · intro v e hv hmem hexp hlt
    simp only [WebFeed.calc_next_check_as_per_server_side_cache, hwr, hhs,
      cfRule, hv, contains_eq_true_of_mem hmem, if_true, hexp, hlt]
  · intro v hv hmem
    simp only [WebFeed.calc_next_check_as_per_server_side_cache, hwr, hhs,
      cfRule, hv, contains_eq_false_of_not_mem hmem, Bool.false_eq_true, if_false]
  · intro hv
    simp only [WebFeed.calc_next_check_as_per_server_side_cache, hwr, hhs,
      cfRule, hv, Bool.false_eq_true, if_false]
  · intro v hv hmem hexp
    simp only [WebFeed.calc_next_check_as_per_server_side_cache, hwr, hhs,
      cfRule, hv, contains_eq_true_of_mem hmem, if_true, hexp]
  · intro v e hv hmem hexp hlt
    simp only [WebFeed.calc_next_check_as_per_server_side_cache, hwr, hhs,
      cfRule, hv, contains_eq_true_of_mem hmem, if_true, hexp, hlt]

/-- C1 witness: cf-cache-status HIT with an expires ten minutes in the
future makes calc_next_check return exactly that expires instant. -/
theorem C1_edge_cache_rule_witness :
    (WebFeed.mk "" "" none
        (some [("Date", "Wed, 21 Oct 2015 07:28:00 GMT"),
               ("Cache-Control", "max-age=600"), ("cf-cache-status", "HIT")])
        200 none none
        (some (mkTestResponse
          [("Date", "Wed, 21 Oct 2015 07:28:00 GMT"),
           ("Cache-Control", "max-age=600"), ("cf-cache-status", "HIT")]
          1445412480))).calc_next_check_as_per_server_side_cache
      = .ok (some ⟨1445413080, some 0⟩) := by
  exact (C1_edge_cache_rule _ _ _ rfl rfl).1 "HIT" ⟨1445413080, some 0⟩
    (by decide) (by decide) (by decide) (by rfl)

/-! ## C2: the RSSHub feed-TTL rule -/

/-- The effective TTL exactly as the claim words it: ttl times 60 when the
feed ttl field is a non-negative decimal integer string, otherwise the
response's max_age, and -1 when neither yields a value. -/
def effectiveTTL_spec (fd : FeedInfo) (wr : WebResponse) : Int :=
  if pyIsDecimal ((fd.ttl).getD "") then (pyDecimalNat ((fd.ttl).getD "") : Int) * 60
  else (wr.max_age).getD (-1)

/-- The code's TTL (with Python `or -1` mapping a falsy 0 to -1) agrees with
the claim's TTL except that a zero TTL becomes -1; both sit on the same side
of the 300-second gate. -/
theorem rsshubTTL_eq_spec (fd : FeedInfo) (wr : WebResponse) :
    rsshubTTL fd wr = if effectiveTTL_spec fd wr = 0 then -1 else effectiveTTL_spec fd wr := by
  unfold rsshubTTL effectiveTTL_spec
  by_cases hdec : pyIsDecimal ((fd.ttl).getD "") = true
  · simp [hdec]
  · simp only [Bool.not_eq_true] at hdec
    cases hm : wr.max_age with
    | none => simp [hdec, hm]
    | some m => simp [hdec, hm]

/-- Unfolding of the feed-TTL rule once generator and a nonempty updated
string are fixed. -/
theorem rsshubRule_eq (fd : FeedInfo) (wr : WebResponse) (u : String)
    (hg : fd.generator = some "RSSHub") (hu : fd.updated = some u) (hne : u ≠ "") :
    rsshubRule (some fd) wr =
      if 300 < rsshubTTL fd wr then
        (match rfc_2822_8601_to_datetime (some u) with
        | none => Except.ok none
        | some upd =>
          match pyDtLt wr.now (upd.addSeconds (rsshubTTL fd wr)) with
          | .error m => .error m
          | .ok true => .ok (some (upd.addSeconds (rsshubTTL fd wr)))
          | .ok false => .ok none)
      else .ok none := by
  unfold rsshubRule
  simp only [hg, hu, if_pos rfl, if_neg hne]
  rfl

/-- C2: for a feed whose generator is exactly RSSHub with a nonempty updated
string, the feed-TTL rule returns updated + TTL seconds precisely when the
claim's effective TTL exceeds 300 seconds, updated parses, and the resulting
instant is strictly after now; under each of the claim's remaining cases
(TTL at most 300, updated unparseable, or instant not strictly after now) it
yields no deferral. -/
theorem C2_feed_ttl_rule (fd : FeedInfo) (wr : WebResponse) (u : String)
    (hg : fd.generator = some "RSSHub") (hu : fd.updated = some u) (hne : u ≠ "") :
    (∀ x, rsshubRule (some fd) wr = .ok (some x) ↔
      (300 < effectiveTTL_spec fd wr ∧ ∃ upd, rfc_2822_8601_to_datetime (some u) = some upd
        ∧ pyDtLt wr.now (upd.addSeconds (effectiveTTL_spec fd wr)) = .ok true
        ∧ x = upd.addSeconds (effectiveTTL_spec fd wr)))
    ∧ (effectiveTTL_spec fd wr ≤ 300 → rsshubRule (some fd) wr = .ok none)
    ∧ (rfc_2822_8601_to_datetime (some u) = none → rsshubRule (some fd) wr = .ok none)
    ∧ (∀ upd, rfc_2822_8601_to_datetime (some u) = some upd →
        pyDtLt wr.now (upd.addSeconds (effectiveTTL_spec fd wr)) = .ok false →
        rsshubRule (some fd) wr = .ok none) := by
  have httl := rsshubTTL_eq_spec fd wr
  have hgate : (300 < rsshubTTL fd wr) ↔ (300 < effectiveTTL_spec fd wr) := by
    rw [httl]; split <;> omega
  have heq : 300 < effectiveTTL_spec fd wr → rsshubTTL fd wr = effectiveTTL_spec fd wr := by
    intro h; rw [httl]; split <;> omega
  have hrw := rsshubRule_eq fd wr u hg hu hne
  refine ⟨?_, ?_, ?_, ?_⟩
  · intro x
    constructor
    · intro hr
      rw [hrw] at hr
      by_cases hgt : 300 < rsshubTTL fd wr
      · rw [if_pos hgt] at hr
        cases hp : rfc_2822_8601_to_datetime (some u) with
        | none => simp [hp] at hr
        | some upd =>
          simp only [hp] at hr
          cases hlt : pyDtLt wr.now (upd.addSeconds (rsshubTTL fd wr)) with
          | error m => simp [hlt] at hr
          | ok b =>
            cases b with
            | false => simp [hlt] at hr
            | true =>
              simp only [hlt, Except.ok.injEq, Option.some.injEq] at hr
              have hs := hgate.mp hgt
              rw [heq hs] at hlt hr
              exact ⟨hs, upd, rfl, hlt, hr.symm⟩
      · rw [if_neg hgt] at hr
        simp at hr
    · rintro ⟨hs, upd, hp, hlt, rfl⟩
      have hgt := hgate.mpr hs
      rw [hrw, if_pos hgt]
      have hlt2 : pyDtLt wr.now (upd.addSeconds (rsshubTTL fd wr)) = .ok true := by
        rw [heq hs]; exact hlt
      simp only [hp, heq hs, hlt, hlt2]
  · intro hle
    have hgt : ¬ 300 < rsshubTTL fd wr := by
      rw [httl]; split <;> omega
    rw [hrw, if_neg hgt]
  · intro hp
    by_cases hgt : 300 < rsshubTTL fd wr
    · rw [hrw, if_pos hgt]
      simp only [hp]
    · rw [hrw, if_neg hgt]
  · intro upd hp hlt
    by_cases hgt : 300 < rsshubTTL fd wr
    · have hs := hgate.mp hgt
      have hlt2 : pyDtLt wr.now (upd.addSeconds (rsshubTTL fd wr)) = .ok false := by
        rw [heq hs]; exact hlt
      rw [hrw, if_pos hgt]
      simp only [hp, hlt2]
    · rw [hrw, if_neg hgt]

/-- C2 witness: generator RSSHub with ttl 10 and updated one second before
now defers to updated + 600 seconds, while ttl 4 (240 seconds, below the
300-second floor) yields no deferral. -/
theorem C2_feed_ttl_rule_witness :
    rsshubRule (some ⟨some "RSSHub", some "Wed, 21 Oct 2015 07:28:00 GMT", some "10"⟩)
        (mkTestResponse [] 1445412481)
      = .ok (some ⟨1445413080, some 0⟩)
    ∧ rsshubRule (some ⟨some "RSSHub", some "Wed, 21 Oct 2015 07:28:00 GMT", some "4"⟩)
        (mkTestResponse [] 1445412481)
      = .ok none := by
  constructor
  · exact ((C2_feed_ttl_rule _ _ "Wed, 21 Oct 2015 07:28:00 GMT" rfl rfl (by decide)).1
      ⟨1445413080, some 0⟩).mpr
      ⟨by decide, ⟨1445412480, some 0⟩, by decide, by rfl, by decide⟩
  · exact (C2_feed_ttl_rule _ _ "Wed, 21 Oct 2015 07:28:00 GMT" rfl rfl (by decide)).2.1
      (by decide)

/-! ## C7: exception behaviour of the exposed operations -/

/-- Comparison of two aware datetimes never raises. -/
theorem pyDtLt_ok_of_aware {a b : PyDateTime} (ha : a.tzOffset.isSome = true)
    (hb : b.tzOffset.isSome = true) : ∃ r, pyDtLt a b = .ok r := by
  obtain ⟨oa, hoa⟩ := Option.isSome_iff_exists.mp ha
  obtain ⟨ob, hob⟩ := Option.isSome_iff_exists.mp hb
  refine ⟨decide (a.seconds - oa < b.seconds - ob), ?_⟩
  simp [pyDtLt, hoa, hob]

/-- The edge-cache rule never raises when every defined expires is aware
(now always is). -/
theorem cfRule_ok (hs : Headers) (wr : WebResponse)
    (hexp : (wr.expires.all fun e => e.tzOffset.isSome) = true) :
    ∃ r, cfRule hs wr = .ok r := by
  unfold cfRule
  split
  · cases he : wr.expires with
    | none => exact ⟨none, rfl⟩
    | some e =>
      rw [he] at hexp
      simp only [Option.all_some] at hexp
      obtain ⟨b, hb⟩ := pyDtLt_ok_of_aware (a := wr.now) (b := e) rfl hexp
      cases b with
      | true => exact ⟨some e, by simp [hb]⟩
      | false => exact ⟨none, by simp [hb]⟩
  · exact ⟨none, rfl⟩

/-- The feed-TTL rule never raises when the feed dictionary is present and
every parse of its updated string is aware. -/
theorem rsshubRule_ok (fd : FeedInfo) (wr : WebResponse)
    (hupd : (fd.updated.all fun u =>
      (rfc_2822_8601_to_datetime (some u)).all fun d => d.tzOffset.isSome) = true) :
    ∃ r, rsshubRule (some fd) wr = .ok r := by
  by_cases hg : fd.generator = some "RSSHub"
  case neg => exact ⟨none, by simp [rsshubRule, hg]⟩
  case pos =>
  cases hu : fd.updated with
  | none => exact ⟨none, by simp [rsshubRule, hg, hu]⟩
  | some u =>
    rw [hu] at hupd
    simp only [Option.all_some] at hupd
    by_cases hne : u = ""
    · exact ⟨none, by simp [rsshubRule, hg, hu, hne]⟩
    · have hrw := rsshubRule_eq fd wr u hg hu hne
      by_cases hgt : 300 < rsshubTTL fd wr
      · cases hp : rfc_2822_8601_to_datetime (some u) with
        | none => exact ⟨none, by rw [hrw, if_pos hgt]; simp [hp]⟩
        | some upd =>
          rw [hp] at hupd
          simp only [Option.all_some] at hupd
          have haw : (upd.addSeconds (rsshubTTL fd wr)).tzOffset.isSome = true := hupd
          obtain ⟨b, hb⟩ := pyDtLt_ok_of_aware (a := wr.now)
            (b := upd.addSeconds (rsshubTTL fd wr)) rfl haw
          cases b with
          | true =>
            exact ⟨some (upd.addSeconds (rsshubTTL fd wr)), by
              rw [hrw, if_pos hgt]; simp [hp, hb]⟩
          | false => exact ⟨none, by rw [hrw, if_pos hgt]; simp [hp, hb]⟩
      · exact ⟨none, by rw [hrw, if_neg hgt]⟩

/-- C7 counterexample: calc_next_check raises AttributeError when the
context carries a response view but no parsed feed (rss_d is None and the
cf-cache-status rule does not fire), so malformed or missing rule inputs are
not all absorbed. -/
theorem C7_counterexample :
    (WebFeed.mk "" "" none (some []) 200 none none
        (some (mkTestResponse [] 0))).calc_next_check_as_per_server_side_cache
      = .error "AttributeError: NoneType object has no attribute feed" := by
  rfl

/-- C7 amended: the exposed operations raise nothing provided their inputs
are well-formed — the feed context carries headers and a parsed feed
whenever it carries a response view, every defined expires and every parse
of the feed's updated string is timezone-aware, and shouldBypassProxy gets
an actual hostname; every parse failure is absorbed into the documented
absent-value result.  (Without these provisos the code can raise:
AttributeError for a missing parsed feed or headers, TypeError when a naive
parsed date is compared with the aware now, AttributeError in the domain
rule when no hostname was extracted.) -/
theorem C7_no_raise_on_wellformed_inputs :
    (∀ f : WebFeed, f.web_response = none →
      f.calc_next_check_as_per_server_side_cache = .ok none)
    ∧ (∀ (f : WebFeed) (wr : WebResponse) (hs : Headers) (fd : FeedInfo),
        f.web_response = some wr → f.headers = some hs → f.rss_d = some fd →
        (wr.expires.all fun e => e.tzOffset.isSome) = true →
        (fd.updated.all fun u =>
          (rfc_2822_8601_to_datetime (some u)).all fun d => d.tzOffset.isSome) = true →
        ∃ r, f.calc_next_check_as_per_server_side_cache = .ok r)
    ∧ (∀ (cfg : ProxyEnvCfg) (h : String), ∃ b, proxy_filter cfg (some h) = .ok b) := by
  refine ⟨?_, ?_, ?_⟩
  · intro f h
    simp [WebFeed.calc_next_check_as_per_server_side_cache, h]
  · intro f wr hs fd hwr hhs hfd hexp hupd
    obtain ⟨r1, hr1⟩ := cfRule_ok hs wr hexp
    obtain ⟨r2, hr2⟩ := rsshubRule_ok fd wr hupd
    cases r1 with
    | none =>
      refine ⟨r2, ?_⟩
      simp only [WebFeed.calc_next_check_as_per_server_side_cache, hwr, hhs, hr1, hfd]
      exact hr2
    | some t =>
      refine ⟨some t, ?_⟩
      simp only [WebFeed.calc_next_check_as_per_server_side_cache, hwr, hhs, hr1]
  · intro cfg h
    obtain ⟨p, ds⟩ := cfg
    cases p with
    | false =>
      cases ds with
      | nil => exact ⟨true, rfl⟩
      | cons d t =>
        by_cases h3 : ((d :: t).any fun x => domainMatch h.data x.data) = true
        · exact ⟨false, by simp [proxy_filter, h3]⟩
        · simp only [Bool.not_eq_true] at h3
          exact ⟨true, by simp [proxy_filter, h3]⟩
    | true =>
      by_cases h1 : (match ip_address h with
          | some a => inPrivateNetworks a
          | none => false) = true
      · exact ⟨false, by simp [proxy_filter, h1]⟩
      · simp only [Bool.not_eq_true] at h1
        cases ds with
        | nil => exact ⟨true, by simp [proxy_filter, h1]⟩
        | cons d t =>
          by_cases h3 : ((d :: t).any fun x => domainMatch h.data x.data) = true
          · exact ⟨false, by simp [proxy_filter, h1, h3]⟩
          · simp only [Bool.not_eq_true] at h3
            exact ⟨true, by simp [proxy_filter, h1, h3]⟩

/-- C7 witness: a fully populated context with aware dates gets an ok
result, and so does the proxy predicate on a bare hostname. -/
theorem C7_no_raise_on_wellformed_inputs_witness :
    (∃ r, (WebFeed.mk "" "" none
        (some [("Date", "Wed, 21 Oct 2015 07:28:00 GMT"), ("Cache-Control", "max-age=600")])
        200 none
        (some ⟨some "RSSHub", some "Wed, 21 Oct 2015 07:28:00 GMT", some "10"⟩)
        (some (mkTestResponse
          [("Date", "Wed, 21 Oct 2015 07:28:00 GMT"), ("Cache-Control", "max-age=600")]
          1445412481))).calc_next_check_as_per_server_side_cache = .ok r)
    ∧ (∃ b, proxy_filter ⟨true, ["example.com"]⟩ (some "localhost") = .ok b) := by
  constructor
  · exact C7_no_raise_on_wellformed_inputs.2.1 _ _ _ _ rfl rfl rfl (by decide) (by decide)
  · exact C7_no_raise_on_wellformed_inputs.2.2 ⟨true, ["example.com"]⟩ "localhost"

/-! ## C8: the proxy bypass predicate -/

/-- The code's per-domain test (suffix plus dot-boundary check on the
character before the suffix) is exactly: equal to the suffix, or ends with
dot-suffix. -/
theorem domainMatch_iff (hl dl : List Char) :
    domainMatch hl dl = true ↔ (hl = dl ∨ ('.' :: dl) <:+ hl) := by
  simp only [domainMatch, Bool.and_eq_true, Bool.or_eq_true, beq_iff_eq,
    List.isSuffixOf_iff_suffix]
  constructor
  · rintro ⟨hsuf, (heq | hlast)⟩
    · exact Or.inl heq
    · obtain ⟨pre, hpre⟩ := hsuf
      right
      subst hpre
      have hlen : (pre ++ dl).length - dl.length = pre.length := by
        simp
      rw [hlen, List.take_left] at hlast
      have hne : pre ≠ [] := by
        intro h
        rw [h] at hlast
        simp at hlast
      have hgl : pre.getLast hne = '.' := by
        have h2 := List.getLast?_eq_getLast pre hne
        rw [h2] at hlast
        exact Option.some.inj hlast
      refine ⟨pre.dropLast, ?_⟩
      have h3 : pre.dropLast ++ ['.'] = pre := by
        conv_rhs => rw [← List.dropLast_concat_getLast hne]
        rw [hgl]
      calc pre.dropLast ++ ('.' :: dl) = (pre.dropLast ++ ['.']) ++ dl := by simp
        _ = pre ++ dl := by rw [h3]
  · rintro (heq | ⟨pre2, hp⟩)
    · subst heq
      exact ⟨List.suffix_refl _, Or.inl rfl⟩
    · subst hp
      constructor
      · exact ⟨pre2 ++ ['.'], by simp⟩
      · right
        have hlen : (pre2 ++ '.' :: dl).length - dl.length = pre2.length + 1 := by
          simp only [List.length_append, List.length_cons]
          omega
        rw [hlen]
        have h2 : pre2 ++ '.' :: dl = (pre2 ++ ['.']) ++ dl := by simp
        have h3 : pre2.length + 1 = (pre2 ++ ['.']).length := by simp
        rw [h2, h3, List.take_left, List.getLast?_concat]

/-- C8: with neither bypass configured the filter always answers use-proxy
(ok true); with private-bypass enabled any hostname that parses as an IP in
the private/loopback/link-local/ULA ranges is bypassed (ok false) while a
public IP such as 8.8.8.8 does not trigger the rule; with domain-bypass
enabled (and private-bypass off) the answer is bypass exactly when the
hostname equals a configured suffix or ends with dot-suffix. -/
theorem C8_proxy_bypass :
    (∀ h : Option String, proxy_filter ⟨false, []⟩ h = .ok true)
    ∧ (∀ (cfg : ProxyEnvCfg) (h : String) (a : PyIpAddr),
        cfg.PROXY_BYPASS_PRIVATE = true → ip_address h = some a →
        inPrivateNetworks a = true → proxy_filter cfg (some h) = .ok false)
    ∧ proxy_filter ⟨true, []⟩ (some "8.8.8.8") = .ok true
    ∧ (∀ (ds : List String) (h : String),
        proxy_filter ⟨false, ds⟩ (some h) = .ok false ↔
          ∃ d ∈ ds, h = d ∨ ('.' :: d.data) <:+ h.data) := by
  refine ⟨?_, ?_, by rfl, ?_⟩
  · intro h
    rfl
  · intro cfg h a hp hip hpriv
    simp [proxy_filter, hp, hip, hpriv]
  · intro ds h
    cases ds with
    | nil =>
      simp [proxy_filter]
    | cons d t =>
      have hred : proxy_filter ⟨false, d :: t⟩ (some h) =
          if ((d :: t).any fun x => domainMatch h.data x.data) = true
          then .ok false else .ok true := by
        simp [proxy_filter]
      rw [hred]
      by_cases hany : ((d :: t).any fun x => domainMatch h.data x.data) = true
      · rw [if_pos hany]
        simp only [true_iff, eq_self_iff_true]
        obtain ⟨d0, hmem, hdm⟩ := List.any_eq_true.mp hany
        rcases (domainMatch_iff h.data d0.data).mp hdm with heq | hsuf
        · exact ⟨d0, hmem, Or.inl (String.ext heq)⟩
        · exact ⟨d0, hmem, Or.inr hsuf⟩
      · rw [if_neg hany]
        constructor
        · intro hcon
          exact absurd hcon (by simp)
        · rintro ⟨d0, hmem, hcase⟩
          exfalso
          apply hany
          refine List.any_eq_true.mpr ⟨d0, hmem, ?_⟩
          refine (domainMatch_iff h.data d0.data).mpr ?_
          rcases hcase with heq | hsuf
          · exact Or.inl (congrArg String.data heq)
          · exact Or.inr hsuf

/-- C8 witness: 127.0.0.1 is bypassed under private-bypass, 8.8.8.8 is not;
suffix example.com matches sub.example.com and example.com itself but not
notexample.com. -/
theorem C8_proxy_bypass_witness :
    proxy_filter ⟨true, []⟩ (some "127.0.0.1") = .ok false
    ∧ proxy_filter ⟨false, ["example.com"]⟩ (some "sub.example.com") = .ok false
    ∧ proxy_filter ⟨false, ["example.com"]⟩ (some "example.com") = .ok false
    ∧ proxy_filter ⟨false, ["example.com"]⟩ (some "notexample.com") = .ok true := by
  refine ⟨?_, ?_, ?_, by rfl⟩
  · exact C8_proxy_bypass.2.1 ⟨true, []⟩ "127.0.0.1" (.v4 2130706433) rfl (by decide) (by decide)
  · exact (C8_proxy_bypass.2.2.2 ["example.com"] "sub.example.com").mpr
      ⟨"example.com", by decide, Or.inr (by decide)⟩
  · exact (C8_proxy_bypass.2.2.2 ["example.com"] "example.com").mpr
      ⟨"example.com", by decide, Or.inl rfl⟩
